import Mathlib

/-!
Verification development for the `daily-scraper` repository.

The core under scrutiny is `ElfaScraper.fetch_endpoint` in
`src/scraper/elfa_scrap.py`: validate an endpoint path, perform an HTTP GET,
decode JSON, dispatch to an endpoint-kind-specific response parsing loop, and
return a `(DataFrame, ScrapeStats)` pair on every path.

The embedding models the decoded JSON payloads as an inductive `JSON` type and
reproduces the Python-level operations the source uses on payload values
(`isinstance`, `in`, `len`, indexing, `dict.get`, iteration, truthiness,
`str`/`strip`) as explicit functions; a Python exception escaping to the outer
`except` handler is modelled by the `Except String` error channel.  The network
is an explicit input (`NetResult`): an HTTP response carries the status, the
raw body text and the result of JSON decoding, and a transport-level exception
is a `netError`.  `datetime.now(timezone.utc)` is modelled by an explicit
`now` parameter (milliseconds since the Unix epoch, as an `Int`).

The helpers `is_valid_endpoint_path`, `get_endpoint_name` and
`tweet_id_to_timestamp` live in `src/utils.py`, which is not part of the
sources available here; they are modelled from the spec (sections 4.1-4.3) and
carry doc comments saying so.
-/

namespace DailyScraper

/-- A decoded JSON value.  Numbers are modelled as integers (the payloads the
source manipulates carry integer identifiers); objects keep their fields as an
ordered association list, as produced by a JSON decoder (keys unique). -/
inductive JSON where
  | null : JSON
  | bool (b : Bool) : JSON
  | num (n : Int) : JSON
  | str (s : String) : JSON
  | arr (elems : List JSON) : JSON
  | obj (fields : List (String × JSON)) : JSON

mutual

/-- Structural (Python `==`) equality of decoded JSON values. -/
def JSON.beq : JSON → JSON → Bool
  | .null, .null => true
  | .bool a, .bool b => a == b
  | .num a, .num b => a == b
  | .str a, .str b => a == b
  | .arr xs, .arr ys => JSON.beqL xs ys
  | .obj fs, .obj gs => JSON.beqF fs gs
  | _, _ => false

/-- Elementwise equality of JSON lists. -/
def JSON.beqL : List JSON → List JSON → Bool
  | [], [] => true
  | x :: xs, y :: ys => JSON.beq x y && JSON.beqL xs ys
  | _, _ => false

/-- Pairwise equality of JSON field lists. -/
def JSON.beqF : List (String × JSON) → List (String × JSON) → Bool
  | [], [] => true
  | (k, v) :: fs, (l, w) :: gs => k == l && JSON.beq v w && JSON.beqF fs gs
  | _, _ => false

end

instance : BEq JSON := ⟨JSON.beq⟩

/-- First-match lookup of a key in the field list of an object. -/
def JSON.lookupField : List (String × JSON) → String → Option JSON
  | [], _ => none
  | (k, v) :: fs, key => if k = key then some v else JSON.lookupField fs key

/-- Python truthiness of a decoded JSON value (`if not x`). -/
def pyTruthy : JSON → Bool
  | .null => false
  | .bool b => b
  | .num n => n != 0
  | .str s => s != ""
  | .arr xs => !xs.isEmpty
  | .obj fs => !fs.isEmpty

/-- Python `isinstance(x, dict)`. -/
def pyIsDict : JSON → Bool
  | .obj _ => true
  | _ => false

/-- Key membership in an object, as a Bool (used after an `isinstance` guard,
where the Python `in` operator cannot raise). -/
def hasKey (j : JSON) (key : String) : Bool :=
  match j with
  | .obj fs => (JSON.lookupField fs key).isSome
  | _ => false

/-- Does `pat` occur at the head of `l`? -/
def listLeads : List Char → List Char → Bool
  | [], _ => true
  | _ :: _, [] => false
  | a :: as, b :: bs => a == b && listLeads as bs

/-- Does `pat` occur as a contiguous run inside `l`?  (Python substring
containment `pat in s`.) -/
def listHasSub (pat : List Char) : List Char → Bool
  | [] => listLeads pat []
  | c :: t => listLeads pat (c :: t) || listHasSub pat t

/-- Python `key in x` for a string `key`: key membership for a dict, element
membership for a list, substring test for a string, `TypeError` otherwise. -/
def pyIn (key : String) : JSON → Except String Bool
  | .obj fs => .ok (JSON.lookupField fs key).isSome
  | .arr xs => .ok (xs.contains (.str key))
  | .str s => .ok (listHasSub key.data s.data)
  | _ => .error "TypeError: argument is not iterable"

/-- Python `x[key]` for a string `key`: dict lookup (`KeyError` when absent),
`TypeError` on any non-dict value. -/
def pyGetItemStr (x : JSON) (key : String) : Except String JSON :=
  match x with
  | .obj fs =>
    match JSON.lookupField fs key with
    | some v => .ok v
    | none => .error ("KeyError: " ++ key)
  | _ => .error "TypeError: value is not subscriptable by str"

/-- Python `item.get(key, dflt)`: defaulting dict lookup; `AttributeError`
when `item` is not a dict. -/
def pyDictGet (item : JSON) (key : String) (dflt : JSON) : Except String JSON :=
  match item with
  | .obj fs => .ok ((JSON.lookupField fs key).getD dflt)
  | _ => .error "AttributeError: object has no attribute get"

/-- Python `x[0]`: head of a list (`IndexError` when empty), first character of
a string, `KeyError`/`TypeError` otherwise. -/
def pyIndexZero : JSON → Except String JSON
  | .arr (h :: _) => .ok h
  | .arr [] => .error "IndexError: list index out of range"
  | .str s =>
    match s.data with
    | c :: _ => .ok (.str (String.mk [c]))
    | [] => .error "IndexError: string index out of range"
  | .obj _ => .error "KeyError: 0"
  | _ => .error "TypeError: object is not subscriptable"

/-- Python `len(x)`. -/
def pyLen : JSON → Except String Nat
  | .arr xs => .ok xs.length
  | .obj fs => .ok fs.length
  | .str s => .ok s.length
  | _ => .error "TypeError: object has no len"

/-- Python iteration `for v in x`: elements of a list, keys of a dict,
characters of a string, `TypeError` otherwise. -/
def pyIter : JSON → Except String (List JSON)
  | .arr xs => .ok xs
  | .obj fs => .ok (fs.map (fun f => JSON.str f.1))
  | .str s => .ok (s.data.map (fun c => JSON.str (String.mk [c])))
  | _ => .error "TypeError: object is not iterable"

/-- Decimal digit to its character. -/
def digitChar : Nat → Char
  | 0 => '0' | 1 => '1' | 2 => '2' | 3 => '3' | 4 => '4'
  | 5 => '5' | 6 => '6' | 7 => '7' | 8 => '8' | _ => '9'

/-- Decimal digits of `n` (fuelled; `fuel ≥ 1 + log10 n` suffices). -/
def natDigitsAux : Nat → Nat → List Char
  | 0, _ => []
  | fuel + 1, n => if n = 0 then [] else natDigitsAux fuel (n / 10) ++ [digitChar (n % 10)]

/-- Decimal rendering of a natural number, as Python `str` produces it. -/
def natStr (n : Nat) : String :=
  if n = 0 then "0" else String.mk (natDigitsAux (n + 1) n)

/-- Decimal rendering of an integer, as Python `str` produces it. -/
def intStr : Int → String
  | .ofNat n => natStr n
  | .negSucc n => "-" ++ natStr (n + 1)

mutual
/-- Python `repr` of a decoded JSON value. -/
def pyRepr : JSON → String
  | .null => "None"
  | .bool true => "True"
  | .bool false => "False"
  | .num n => intStr n
  | .str s => "\x27" ++ s ++ "\x27"
  | .arr xs => "[" ++ pyReprElems xs ++ "]"
  | .obj fs => "\x7b" ++ pyReprPairs fs ++ "\x7d"

/-- Comma-separated `repr` of list elements. -/
def pyReprElems : List JSON → String
  | [] => ""
  | [x] => pyRepr x
  | x :: xs => pyRepr x ++ ", " ++ pyReprElems xs

/-- Comma-separated `repr` of dict pairs. -/
def pyReprPairs : List (String × JSON) → String
  | [] => ""
  | [(k, v)] => "\x27" ++ k ++ "\x27: " ++ pyRepr v
  | (k, v) :: fs => "\x27" ++ k ++ "\x27: " ++ pyRepr v ++ ", " ++ pyReprPairs fs
end

/-- Python `str` of a decoded JSON value (`str` is `repr` except on strings). -/
def pyStr (j : JSON) : String :=
  match j with
  | .str s => s
  | _ => pyRepr j

/-- Is `c` one of the characters that Python `str.strip()` removes? -/
def isPySpace (c : Char) : Bool :=
  c == ' ' || c == '\t' || c == '\n' || c == '\x0d' || c == '\x0b' || c == '\x0c'

/-- Drop leading whitespace characters. -/
def dropSpacesL : List Char → List Char
  | [] => []
  | c :: t => if isPySpace c then dropSpacesL t else c :: t

/-- Python `s.strip()`. -/
def pyStrip (s : String) : String :=
  String.mk ((dropSpacesL (dropSpacesL s.data).reverse).reverse)

/-- Python `s[:n]` (slice of the first `n` characters). -/
def pySlice (s : String) (n : Nat) : String :=
  String.mk (s.data.take n)

/-- The `[link.strip() for link in xs if isinstance(link, str) and link.strip()]`
comprehension from the record construction in the source. -/
def filterLinks (xs : List JSON) : List String :=
  xs.filterMap fun j =>
    match j with
    | .str s => if pyStrip s != "" then some (pyStrip s) else none
    | _ => none

/-- Python iteration over the source-link field followed by the comprehension:
raises when the field value is not iterable. -/
def pyLinks (v : JSON) : Except String (List String) :=
  match pyIter v with
  | .error e => .error e
  | .ok xs => .ok (filterLinks xs)

/-- One normalized record, i.e. one row of the dataframe the source builds
(field order matches the record dict in the source: id, text, timestamp,
author, platform, channel_id, links).  Timestamps are milliseconds since the
Unix epoch. -/
structure NormalizedRecord where
  id : JSON
  text : String
  timestamp : Int
  author : String
  platform : String
  channel_id : String
  links : List String

/-- The `ScrapeStats` TypedDict from `src/types.py`: `success` and `error` are
`NotRequired`, so `none` models the key being absent from the dict. -/
structure ScrapeStats where
  channel_id : String
  platform : String
  pulled : Nat
  kept : Nat
  success : Option Bool
  error : Option String

/-- The in-memory record container (a pandas `DataFrame` in the source): a
column list plus the rows.  `pd.DataFrame(records)` derives its columns from
the keys of the record dicts; the explicitly constructed empty frame fixes its own
column list. -/
structure DataFrame where
  columns : List String
  rows : List NormalizedRecord

/-- `pd.DataFrame(columns=["id", "text", "timestamp", "author", "platform",
"links"])` — the empty frame the source constructs for every failure path and
for an all-skipped parse. -/
def emptyDf : DataFrame :=
  ⟨["id", "text", "timestamp", "author", "platform", "links"], []⟩

/-- The column list `pd.DataFrame(records)` derives from a non-empty records
list (insertion order of the keys of the record dict). -/
def recordColumns : List String :=
  ["id", "text", "timestamp", "author", "platform", "channel_id", "links"]

/-- `pd.DataFrame(records) if records else empty_df` from the
finalize step. -/
def dfOfRecords (records : List NormalizedRecord) : DataFrame :=
  if records.isEmpty then emptyDf else ⟨recordColumns, records⟩

/-- Failure statistics as every failure return in the source builds them:
`pulled=0, kept=0, success=False, error=<message>`. -/
def failStats (title err : String) : ScrapeStats :=
  ⟨title, "elfa", 0, 0, some false, some err⟩

/-- Modelled from the spec: the identifying prefix segment of a path-plus-query
string (section 4.2) — strip one leading slash, then take characters up to the
first `?` or `/`.  Implemented here because `src/utils.py` is not among the
available sources. -/
def endpointSegment (path : String) : String :=
  String.mk (segTake (dropSlash path.data))
where
  /-- Drop a single leading slash. -/
  dropSlash : List Char → List Char
    | '/' :: rest => rest
    | cs => cs
  /-- Take characters up to the first query or path separator. -/
  segTake : List Char → List Char
    | [] => []
    | c :: cs => if c == '?' || c == '/' then [] else c :: segTake cs

/-- Modelled from the spec: `is_valid_endpoint_path` from the missing
`src/utils.py` (section 4.1) — classify the path by exact, case-sensitive
match of its prefix segment against the closed set of the two supported
endpoint kinds, raising `ValueError` (the `.error` case) with the offending
path otherwise. -/
def is_valid_endpoint_path (path : String) : Except String String :=
  let seg := endpointSegment path
  if seg = "trending-narratives" ∨ seg = "event-summary" then .ok seg
  else .error ("Unknown endpoint path: " ++ path)

/-- Modelled from the spec: `get_endpoint_name` from the missing
`src/utils.py` (section 4.2) — the short display label is the identifying
prefix segment of the path, extracted without requiring validation. -/
def get_endpoint_name (path : String) : String :=
  endpointSegment path

/-- Modelled from the spec: `tweet_id_to_timestamp` from the missing
`src/utils.py` (section 4.3) — snowflake decoding: the high bits (above bit
22) of the numeric identifier plus the platform epoch offset in milliseconds;
a malformed (non-numeric) identifier degrades to the current time. -/
def tweet_id_to_timestamp (now : Int) (id : JSON) : Int :=
  match id with
  | .num n => n / 2 ^ 22 + 1288834974657
  | _ => now

/-- The per-item body of the parsing loops in the source (lines 108-129 and
147-168), shared between the two kinds: read the identifier-list field
(defaulting to `[]`), skip the item when it is falsy, otherwise index its
first element, read the text field (defaulting to `""`, then `str(...).strip()`),
and read and filter the source-link field.  Returns `none` for a skipped item;
the `Except` error channel carries a raised Python exception. -/
def recordOfItem (idsKey textKey linksKey : String) (ts : JSON → Int)
    (path : String) (item : JSON) : Except String (Option NormalizedRecord) :=
  match pyDictGet item idsKey (.arr []) with
  | .error e => .error e
  | .ok tweet_ids =>
    if pyTruthy tweet_ids then
      match pyIndexZero tweet_ids with
      | .error e => .error e
      | .ok tweet_id =>
        match pyDictGet item textKey (.str "") with
        | .error e => .error e
        | .ok textV =>
          match pyDictGet item linksKey (.arr []) with
          | .error e => .error e
          | .ok linksV =>
            match pyLinks linksV with
            | .error e => .error e
            | .ok links =>
              .ok (some ⟨tweet_id, pyStrip (pyStr textV), ts tweet_id,
                "elfa_" ++ pyStr tweet_id, "elfa", path, links⟩)
    else .ok none

/-- The item body for the `event-summary` kind (keys `tweetIds`, `summary`,
`sourceLinks`; timestamp is the current UTC time). -/
def eventRecord (now : Int) (path : String) : JSON → Except String (Option NormalizedRecord) :=
  recordOfItem "tweetIds" "summary" "sourceLinks" (fun _ => now) path

/-- The item body for the `trending-narratives` kind (keys `tweet_ids`,
`narrative`, `source_links`; timestamp decoded from the identifier). -/
def narrRecord (now : Int) (path : String) : JSON → Except String (Option NormalizedRecord) :=
  recordOfItem "tweet_ids" "narrative" "source_links" (tweet_id_to_timestamp now) path

/-- The `for item in items` accumulation of the source: run the item body on each
element in order, appending the produced record when the item is not skipped;
the first raised exception aborts the whole loop. -/
def parseItems (recOf : JSON → Except String (Option NormalizedRecord)) :
    List JSON → Except String (List NormalizedRecord)
  | [] => .ok []
  | item :: rest =>
    match recOf item with
    | .error e => .error e
    | .ok r =>
      match parseItems recOf rest with
      | .error e => .error e
      | .ok rs => .ok (match r with | some rec => rec :: rs | none => rs)

/-- The `event-summary` parsing loop over the already-extracted items. -/
def parseEventItems (now : Int) (path : String) (items : List JSON) :
    Except String (List NormalizedRecord) :=
  parseItems (eventRecord now path) items

/-- The `trending-narratives` parsing loop over the already-extracted items. -/
def parseNarrativeItems (now : Int) (path : String) (items : List JSON) :
    Except String (List NormalizedRecord) :=
  parseItems (narrRecord now path) items

/-- The guard `isinstance(raw_data, dict) and "data" in raw_data and
"trending_narratives" in raw_data["data"]` — the third conjunct applies
Python `in` to an arbitrary value and can itself raise. -/
def checkTrending (raw : JSON) : Except String Bool :=
  if pyIsDict raw then
    if hasKey raw "data" then
      match pyGetItemStr raw "data" with
      | .error e => .error e
      | .ok d => pyIn "trending_narratives" d
    else .ok false
  else .ok false

/-- The tail of either parse branch (lines 105-106/144-145 then 170-178):
`total_pulled = len(container)`, iterate, run the loop body, and build the
success result `(DataFrame(records) or empty, stats with success absent)`. -/
def finishParse (title : String) (container : JSON)
    (runItems : List JSON → Except String (List NormalizedRecord)) :
    Except String (DataFrame × ScrapeStats) :=
  match pyLen container with
  | .error e => .error e
  | .ok total_pulled =>
    match pyIter container with
    | .error e => .error e
    | .ok itemList =>
      match runItems itemList with
      | .error e => .error e
      | .ok records =>
        .ok (dfOfRecords records, ⟨title, "elfa", total_pulled, records.length, none, none⟩)

/-- The outcome of the network layer for one call: either a transport-level
exception (timeout, connection error — anything `aiohttp` raises), or a
response carrying the HTTP status, the raw body text and the outcome of
decoding the body as JSON. -/
inductive NetResult where
  | netError (msg : String) : NetResult
  | response (status : Nat) (bodyText : String) (decoded : Except String JSON) : NetResult

/-- The body of the outer `try` of the source after validation (lines 60-178): the
non-200 check, JSON decoding, the structural guard for the matched kind, and
the parse loop of the kind.  A `.error` is an exception reaching the outer
`except` handler. -/
def fetchBody (now : Int) (endpoint_type title path : String) (status : Nat)
    (bodyText : String) (decoded : Except String JSON) :
    Except String (DataFrame × ScrapeStats) :=
  if status ≠ 200 then
    .ok (emptyDf, failStats title (pySlice bodyText 200))
  else
    match decoded with
    | .error e => .ok (emptyDf, failStats title e)
    | .ok raw_data =>
      if endpoint_type = "event-summary" then
        if pyIsDict raw_data && hasKey raw_data "data" then
          match pyGetItemStr raw_data "data" with
          | .error e => .error e
          | .ok items => finishParse title items (parseEventItems now path)
        else
          .ok (emptyDf, failStats title "⚠️ Missing \x27data\x27 field in event-summary response")
      else if endpoint_type = "trending-narratives" then
        match checkTrending raw_data with
        | .error e => .error e
        | .ok ok =>
          if ok then
            match pyGetItemStr raw_data "data" with
            | .error e => .error e
            | .ok d =>
              match pyGetItemStr d "trending_narratives" with
              | .error e => .error e
              | .ok narratives => finishParse title narratives (parseNarrativeItems now path)
          else
            .ok (emptyDf, failStats title "⚠️ Missing \x27trending_narratives\x27 in response")
      else
        .error "NameError: name \x27total_pulled\x27 is not defined"

/-- `ElfaScraper.fetch_endpoint` (lines 27-189): validate the path (returning
bare `pulled=0, kept=0` stats keyed by the raw path on `ValueError`, with
`success` and `error` keys absent), then run the guarded body, converting any
exception that reaches the outer handler into `Unexpected error` failure
stats.  The Alerting Sink and logger calls do not affect the returned value
and are not modelled. -/
def fetch_endpoint (now : Int) (net : NetResult) (path_url : String) :
    DataFrame × ScrapeStats :=
  match is_valid_endpoint_path path_url with
  | .error _ =>
    (emptyDf, ⟨path_url, "elfa", 0, 0, none, none⟩)
  | .ok endpoint_type =>
    let title_elfa := get_endpoint_name path_url
    let attempt : Except String (DataFrame × ScrapeStats) :=
      match net with
      | .netError msg => .error msg
      | .response status bodyText decoded =>
        fetchBody now endpoint_type title_elfa path_url status bodyText decoded
    match attempt with
    | .ok r => r
    | .error e =>
      (emptyDf, failStats title_elfa ("💥 Elfa " ++ title_elfa ++ ": Unexpected error – " ++ e))


/-! ### Helper lemmas -/

/-- The first identifier a parse-loop item contributes, if any: the head of the
identifier-list field of the item when that field is present and truthy. -/
def firstIdOf (key : String) (item : JSON) : Option JSON :=
  match pyDictGet item key (.arr []) with
  | .error _ => none
  | .ok ids => if pyTruthy ids then (pyIndexZero ids).toOption else none

theorem pyLen_pyIter (c : JSON) (n : Nat) (l : List JSON)
    (hlen : pyLen c = .ok n) (hiter : pyIter c = .ok l) : l.length = n := by
  cases c <;> simp [pyLen, pyIter] at hlen hiter <;> subst hlen <;> subst hiter <;> simp

theorem parseItems_length (recOf : JSON → Except String (Option NormalizedRecord))
    (items : List JSON) (recs : List NormalizedRecord)
    (h : parseItems recOf items = .ok recs) : recs.length ≤ items.length := by
  induction items generalizing recs with
  | nil =>
    simp [parseItems] at h
    subst h
    simp
  | cons item rest ih =>
    unfold parseItems at h
    cases hr : recOf item with
    | error e => rw [hr] at h; exact absurd h (by simp)
    | ok r =>
      simp only [hr] at h
      cases hrest : parseItems recOf rest with
      | error e => rw [hrest] at h; exact absurd h (by simp)
      | ok rs =>
        simp only [hrest] at h
        simp only [Except.ok.injEq] at h
        subst h
        cases r with
        | none => simpa using Nat.le_succ_of_le (ih rs hrest)
        | some rec => simpa using Nat.succ_le_succ (ih rs hrest)

theorem recordOfItem_id (k tk lk : String) (ts : JSON → Int) (path : String)
    (item : JSON) (r : Option NormalizedRecord)
    (h : recordOfItem k tk lk ts path item = .ok r) :
    r.map NormalizedRecord.id = firstIdOf k item := by
  unfold recordOfItem at h
  cases hg : pyDictGet item k (.arr []) with
  | error e => simp only [hg] at h; exact absurd h (by simp)
  | ok ids =>
    simp only [hg] at h
    simp only [firstIdOf, hg]
    by_cases ht : pyTruthy ids = true
    · rw [if_pos ht] at h
      rw [if_pos ht]
      cases hidx : pyIndexZero ids with
      | error e => rw [hidx] at h; exact absurd h (by simp)
      | ok tid =>
        simp only [hidx] at h
        cases htv : pyDictGet item tk (.str "") with
        | error e => rw [htv] at h; exact absurd h (by simp)
        | ok textV =>
          simp only [htv] at h
          cases hlv : pyDictGet item lk (.arr []) with
          | error e => rw [hlv] at h; exact absurd h (by simp)
          | ok linksV =>
            simp only [hlv] at h
            cases hlk : pyLinks linksV with
            | error e => rw [hlk] at h; exact absurd h (by simp)
            | ok links =>
              simp only [hlk] at h
              simp only [Except.ok.injEq] at h
              subst h
              simp [Except.toOption]
    · rw [if_neg ht] at h
      rw [if_neg ht]
      simp only [Except.ok.injEq] at h
      subst h
      rfl

theorem parseItems_ids (k tk lk : String) (ts : JSON → Int) (path : String)
    (items : List JSON) (recs : List NormalizedRecord)
    (h : parseItems (recordOfItem k tk lk ts path) items = .ok recs) :
    recs.map NormalizedRecord.id = items.filterMap (firstIdOf k) := by
  induction items generalizing recs with
  | nil =>
    simp [parseItems] at h
    subst h
    rfl
  | cons item rest ih =>
    unfold parseItems at h
    cases hr : recordOfItem k tk lk ts path item with
    | error e => rw [hr] at h; exact absurd h (by simp)
    | ok r =>
      simp only [hr] at h
      cases hrest : parseItems (recordOfItem k tk lk ts path) rest with
      | error e => rw [hrest] at h; exact absurd h (by simp)
      | ok rs =>
        simp only [hrest] at h
        simp only [Except.ok.injEq] at h
        subst h
        have hid := recordOfItem_id k tk lk ts path item r hr
        cases r with
        | none =>
          simp only [Option.map] at hid
          rw [List.filterMap_cons, ← hid]
          exact ih rs hrest
        | some rec =>
          simp only [Option.map] at hid
          rw [List.filterMap_cons, ← hid]
          simpa using ih rs hrest

theorem finishParse_ok (title : String) (c : JSON)
    (run : List JSON → Except String (List NormalizedRecord))
    (df : DataFrame) (s : ScrapeStats)
    (h : finishParse title c run = .ok (df, s)) :
    ∃ l recs, pyIter c = .ok l ∧ run l = .ok recs ∧ df = dfOfRecords recs ∧
      s = ⟨title, "elfa", l.length, recs.length, none, none⟩ := by
  unfold finishParse at h
  cases hlen : pyLen c with
  | error e => rw [hlen] at h; exact absurd h (by simp)
  | ok n =>
    simp only [hlen] at h
    cases hiter : pyIter c with
    | error e => rw [hiter] at h; exact absurd h (by simp)
    | ok l =>
      simp only [hiter] at h
      cases hrun : run l with
      | error e => rw [hrun] at h; exact absurd h (by simp)
      | ok recs =>
        simp only [hrun] at h
        simp only [Except.ok.injEq, Prod.mk.injEq] at h
        obtain ⟨hdf, hs⟩ := h
        refine ⟨l, recs, rfl, hrun, hdf.symm, ?_⟩
        rw [← hs, pyLen_pyIter c n l hlen hiter]


theorem valid_name (path t : String) (h : is_valid_endpoint_path path = .ok t) :
    get_endpoint_name path = t := by
  unfold is_valid_endpoint_path at h
  dsimp only at h
  split at h
  · simp only [Except.ok.injEq] at h
    exact h
  · exact absurd h (by simp)

theorem parseEventItems_ids (now : Int) (path : String) (items : List JSON)
    (recs : List NormalizedRecord) (h : parseEventItems now path items = .ok recs) :
    recs.map NormalizedRecord.id = items.filterMap (firstIdOf "tweetIds") :=
  parseItems_ids "tweetIds" "summary" "sourceLinks" (fun _ => now) path items recs h

theorem parseNarrativeItems_ids (now : Int) (path : String) (items : List JSON)
    (recs : List NormalizedRecord) (h : parseNarrativeItems now path items = .ok recs) :
    recs.map NormalizedRecord.id = items.filterMap (firstIdOf "tweet_ids") :=
  parseItems_ids "tweet_ids" "narrative" "source_links" (tweet_id_to_timestamp now) path items recs h

theorem fetchBody_shape (now : Int) (t title path : String) (status : Nat)
    (b : String) (d : Except String JSON) (df : DataFrame) (s : ScrapeStats)
    (h : fetchBody now t title path status b d = .ok (df, s)) :
    (∃ e, df = emptyDf ∧ s = failStats title e)
    ∨ ∃ recs n, df = dfOfRecords recs ∧ s = ⟨title, "elfa", n, recs.length, none, none⟩
        ∧ recs.length ≤ n := by
  unfold fetchBody at h
  split at h
  · simp only [Except.ok.injEq, Prod.mk.injEq] at h
    exact Or.inl ⟨_, h.1.symm, h.2.symm⟩
  · split at h
    · simp only [Except.ok.injEq, Prod.mk.injEq] at h
      exact Or.inl ⟨_, h.1.symm, h.2.symm⟩
    · split at h
      · split at h
        · split at h
          · exact absurd h (by simp)
          · rename_i items hitems
            obtain ⟨l, recs, hiter, hrun, hdf, hs⟩ := finishParse_ok _ _ _ _ _ h
            exact Or.inr ⟨recs, l.length, hdf, hs,
              parseItems_length _ _ _ hrun⟩
        · simp only [Except.ok.injEq, Prod.mk.injEq] at h
          exact Or.inl ⟨_, h.1.symm, h.2.symm⟩
      · split at h
        · split at h
          · exact absurd h (by simp)
          · split at h
            · split at h
              · exact absurd h (by simp)
              · split at h
                · exact absurd h (by simp)
                · obtain ⟨l, recs, hiter, hrun, hdf, hs⟩ := finishParse_ok _ _ _ _ _ h
                  exact Or.inr ⟨recs, l.length, hdf, hs,
                    parseItems_length _ _ _ hrun⟩
            · simp only [Except.ok.injEq, Prod.mk.injEq] at h
              exact Or.inl ⟨_, h.1.symm, h.2.symm⟩
        · exact absurd h (by simp)

theorem fetch_shape (now : Int) (net : NetResult) (path : String) :
    (∃ e, is_valid_endpoint_path path = .error e
      ∧ fetch_endpoint now net path = (emptyDf, ⟨path, "elfa", 0, 0, none, none⟩))
    ∨ (∃ e, fetch_endpoint now net path = (emptyDf, failStats (get_endpoint_name path) e))
    ∨ (∃ recs n, fetch_endpoint now net path
        = (dfOfRecords recs, ⟨get_endpoint_name path, "elfa", n, recs.length, none, none⟩)
        ∧ recs.length ≤ n) := by
  unfold fetch_endpoint
  cases hv : is_valid_endpoint_path path with
  | error e => exact Or.inl ⟨e, rfl, rfl⟩
  | ok t =>
    cases net with
    | netError msg =>
      exact Or.inr (Or.inl ⟨_, rfl⟩)
    | response status bodyText decoded =>
      dsimp only
      cases hb : fetchBody now t (get_endpoint_name path) path status bodyText decoded with
      | error e => exact Or.inr (Or.inl ⟨_, rfl⟩)
      | ok r =>
        obtain ⟨df, s⟩ := r
        rcases fetchBody_shape now t (get_endpoint_name path) path status bodyText decoded df s hb with
          ⟨e, hdf, hs⟩ | ⟨recs, n, hdf, hs, hle⟩
        · exact Or.inr (Or.inl ⟨e, by rw [hdf, hs]⟩)
        · exact Or.inr (Or.inr ⟨recs, n, by rw [hdf, hs], hle⟩)


/-! ### Claim theorems -/

/-- C1 (amended): `fetch_endpoint` is total (never raises to its caller) and
every failure whose stats carry `success = false` also returns the empty
record frame and a populated `error`; however the invalid-endpoint failure
path returns stats keyed by the raw path with `pulled = 0, kept = 0` and the
`success` and `error` fields absent, not `success = false` with a populated
`error` as the claim states. -/
theorem C1_failure_stats (now : Int) (net : NetResult) (path : String) :
    ((fetch_endpoint now net path).2.success = some false →
      (fetch_endpoint now net path).1 = emptyDf
      ∧ ∃ e, (fetch_endpoint now net path).2.error = some e)
    ∧ (∀ e, is_valid_endpoint_path path = .error e →
      fetch_endpoint now net path = (emptyDf, ⟨path, "elfa", 0, 0, none, none⟩)) := by
  constructor
  · intro hs
    rcases fetch_shape now net path with ⟨e, hv, hr⟩ | ⟨e, hr⟩ | ⟨recs, n, hr, hle⟩
    · rw [hr] at hs
      exact absurd hs (by simp)
    · rw [hr]
      exact ⟨rfl, e, rfl⟩
    · rw [hr] at hs
      exact absurd hs (by simp)
  · intro e hv
    unfold fetch_endpoint
    rw [hv]

/-- Witness for C1: a non-200 response on a valid path gives the empty frame
and a populated error; an invalid path gives the bare raw-path stats. -/
theorem C1_failure_stats_witness :
    ((fetch_endpoint 0 (.response 500 "oops" (.ok .null)) "/event-summary").1 = emptyDf
      ∧ ∃ e, (fetch_endpoint 0 (.response 500 "oops" (.ok .null)) "/event-summary").2.error = some e)
    ∧ fetch_endpoint 0 (.response 500 "oops" (.ok .null)) "/nope"
        = (emptyDf, ⟨"/nope", "elfa", 0, 0, none, none⟩) :=
  ⟨(C1_failure_stats 0 (.response 500 "oops" (.ok .null)) "/event-summary").1 rfl,
   (C1_failure_stats 0 (.response 500 "oops" (.ok .null)) "/nope").2
     "Unknown endpoint path: /nope" rfl⟩

/-- C1 counterexample: on the invalid-endpoint failure path the returned stats
do not have `success = false`, and the `error` field is absent, contradicting
the claim that every failure path returns `success = false` with a populated
`error`. -/
theorem C1_cex :
    (fetch_endpoint 5 (.response 200 "" (.ok .null)) "/bogus").2.success ≠ some false
    ∧ (fetch_endpoint 5 (.response 200 "" (.ok .null)) "/bogus").2.error = none :=
  ⟨fun h => Option.noConfusion h, rfl⟩

/-- C2: on every run whose stats leave `success` absent, `kept ≤ pulled`; on
every branch that sets `success = false`, both `pulled` and `kept` are 0; and
the invalid-endpoint branch also forces both to 0. -/
theorem C2_stats_invariant (now : Int) (net : NetResult) (path : String) :
    ((fetch_endpoint now net path).2.success = none →
      (fetch_endpoint now net path).2.kept ≤ (fetch_endpoint now net path).2.pulled)
    ∧ ((fetch_endpoint now net path).2.success = some false →
      (fetch_endpoint now net path).2.pulled = 0 ∧ (fetch_endpoint now net path).2.kept = 0) := by
  rcases fetch_shape now net path with ⟨e, hv, hr⟩ | ⟨e, hr⟩ | ⟨recs, n, hr, hle⟩ <;> rw [hr]
  · exact ⟨fun _ => le_refl 0, fun hs => absurd hs (by simp)⟩
  · exact ⟨fun hs => absurd hs (by simp [failStats]), fun _ => ⟨rfl, rfl⟩⟩
  · exact ⟨fun _ => hle, fun hs => absurd hs (by simp)⟩

/-- Witness for C2: a successful parse keeps one of two pulled items; a non-200
failure forces both counters to 0. -/
theorem C2_stats_invariant_witness :
    (fetch_endpoint 0 (.response 200 "" (.ok (.obj [("data", .obj [("trending_narratives",
        .arr [.obj [("tweet_ids", .arr [.num 4])], .obj [("tweet_ids", .arr [])]])])])))
        "/trending-narratives").2.kept
      ≤ (fetch_endpoint 0 (.response 200 "" (.ok (.obj [("data", .obj [("trending_narratives",
        .arr [.obj [("tweet_ids", .arr [.num 4])], .obj [("tweet_ids", .arr [])]])])])))
        "/trending-narratives").2.pulled
    ∧ ((fetch_endpoint 0 (.response 500 "x" (.ok .null)) "/trending-narratives").2.pulled = 0
      ∧ (fetch_endpoint 0 (.response 500 "x" (.ok .null)) "/trending-narratives").2.kept = 0) :=
  ⟨(C2_stats_invariant 0 (.response 200 "" (.ok (.obj [("data", .obj [("trending_narratives",
      .arr [.obj [("tweet_ids", .arr [.num 4])], .obj [("tweet_ids", .arr [])]])])])))
      "/trending-narratives").1 rfl,
   (C2_stats_invariant 0 (.response 500 "x" (.ok .null)) "/trending-narratives").2 rfl⟩


/-- C3: in either endpoint kind, an item whose identifier list is empty or
absent produces no record yet is still counted in `pulled` (which is the raw
container length even when items are skipped), and the id of every produced
record is the first identifier of its item, the later ones being discarded. -/
theorem C3_first_identifier_wins (now : Int) (path b : String) (items : List JSON) :
    (∀ recs, parseNarrativeItems now path items = .ok recs →
      recs.map NormalizedRecord.id = items.filterMap (firstIdOf "tweet_ids"))
    ∧ (∀ recs, parseEventItems now path items = .ok recs →
      recs.map NormalizedRecord.id = items.filterMap (firstIdOf "tweetIds"))
    ∧ (∀ recs, is_valid_endpoint_path path = .ok "trending-narratives" →
      parseNarrativeItems now path items = .ok recs →
      fetch_endpoint now
        (.response 200 b (.ok (.obj [("data", .obj [("trending_narratives", .arr items)])]))) path
        = (dfOfRecords recs, ⟨"trending-narratives", "elfa", items.length, recs.length, none, none⟩))
    ∧ (∀ recs, is_valid_endpoint_path path = .ok "event-summary" →
      parseEventItems now path items = .ok recs →
      fetch_endpoint now (.response 200 b (.ok (.obj [("data", .arr items)]))) path
        = (dfOfRecords recs, ⟨"event-summary", "elfa", items.length, recs.length, none, none⟩)) := by
  refine ⟨fun recs hp => parseNarrativeItems_ids now path items recs hp,
    fun recs hp => parseEventItems_ids now path items recs hp, ?_, ?_⟩
  · intro recs hv hp
    have hname := valid_name path _ hv
    simp only [fetch_endpoint, hv, hname]
    simp only [fetchBody, checkTrending, pyIsDict, hasKey, JSON.lookupField, pyGetItemStr,
      pyIn, finishParse, pyLen, pyIter, hp]
    simp [JSON.lookupField, hp]
  · intro recs hv hp
    have hname := valid_name path _ hv
    simp only [fetch_endpoint, hv, hname]
    simp only [fetchBody, pyIsDict, hasKey, JSON.lookupField, pyGetItemStr,
      finishParse, pyLen, pyIter, hp]
    simp [JSON.lookupField, hp]

/-- Witness for C3: a two-item payload with one empty identifier list keeps
one record (id = first identifier) while `pulled` counts both items. -/
theorem C3_first_identifier_wins_witness :
    fetch_endpoint 0 (.response 200 "" (.ok (.obj [("data", .obj [("trending_narratives",
        .arr [.obj [("tweet_ids", .arr [.num 6, .num 7])], .obj [("tweet_ids", .arr [])]])])])))
      "/trending-narratives"
      = (dfOfRecords [⟨.num 6, "", 1288834974657, "elfa_6", "elfa", "/trending-narratives", []⟩],
         ⟨"trending-narratives", "elfa", 2, 1, none, none⟩) :=
  (C3_first_identifier_wins 0 "/trending-narratives" ""
    [.obj [("tweet_ids", .arr [.num 6, .num 7])], .obj [("tweet_ids", .arr [])]]).2.2.1
    [⟨.num 6, "", 1288834974657, "elfa_6", "elfa", "/trending-narratives", []⟩] rfl rfl

/-- C4: for the trending-narratives kind, a decoded payload that is not an
object, or lacks the `data` key, or whose `data` is an object lacking the
`trending_narratives` key, is a MalformedPayload failure — empty frame and
failure stats — rather than a silently-empty success. -/
theorem C4_missing_nesting (now : Int) (path b : String) (raw : JSON)
    (hv : is_valid_endpoint_path path = .ok "trending-narratives")
    (hshape : pyIsDict raw = false
      ∨ (∃ fs, raw = .obj fs ∧ JSON.lookupField fs "data" = none)
      ∨ (∃ fs gs, raw = .obj fs ∧ JSON.lookupField fs "data" = some (.obj gs)
          ∧ JSON.lookupField gs "trending_narratives" = none)) :
    fetch_endpoint now (.response 200 b (.ok raw)) path
      = (emptyDf, failStats "trending-narratives"
          "\u26a0\ufe0f Missing \x27trending_narratives\x27 in response") := by
  have hname := valid_name path _ hv
  have hct : checkTrending raw = .ok false := by
    rcases hshape with hnd | ⟨fs, hfs, hlk⟩ | ⟨fs, gs, hfs, hlk, hlk2⟩
    · simp [checkTrending, hnd]
    · subst hfs
      simp [checkTrending, pyIsDict, hasKey, hlk]
    · subst hfs
      simp [checkTrending, pyIsDict, hasKey, hlk, pyGetItemStr, pyIn, hlk2]
  simp only [fetch_endpoint, hv, hname]
  simp only [fetchBody, hct]
  simp

/-- Witness for C4: an empty JSON object payload on the trending-narratives
endpoint fails as MalformedPayload. -/
theorem C4_missing_nesting_witness :
    fetch_endpoint 0 (.response 200 "" (.ok (.obj []))) "/trending-narratives"
      = (emptyDf, failStats "trending-narratives"
          "\u26a0\ufe0f Missing \x27trending_narratives\x27 in response") :=
  C4_missing_nesting 0 "/trending-narratives" "" (.obj []) rfl
    (Or.inr (Or.inl ⟨[], rfl, rfl⟩))

/-- C5: on every non-200 response for a validated path, the returned stats are
the failure stats whose `error` is the first 200 characters of the response
body (hence at most 200 characters long), with `pulled = 0`, `kept = 0`,
`success = false`, and the empty record frame. -/
theorem C5_non200_truncated (now : Int) (path b t : String) (status : Nat)
    (d : Except String JSON) (hv : is_valid_endpoint_path path = .ok t)
    (hs : status ≠ 200) :
    fetch_endpoint now (.response status b d) path
      = (emptyDf, failStats (get_endpoint_name path) (pySlice b 200))
    ∧ (pySlice b 200).length ≤ 200 := by
  constructor
  · simp only [fetch_endpoint, hv]
    simp only [fetchBody, if_pos hs]
  · show (b.data.take 200).length ≤ 200
    exact List.length_take_le 200 b.data

/-- Witness for C5: a 500 response with body `"server error"` yields failure
stats carrying the (short enough to be untruncated) body as the error. -/
theorem C5_non200_truncated_witness :
    fetch_endpoint 0 (.response 500 "server error" (.ok .null)) "/event-summary?x=1"
      = (emptyDf, failStats (get_endpoint_name "/event-summary?x=1") (pySlice "server error" 200))
    ∧ (pySlice "server error" 200).length ≤ 200 :=
  C5_non200_truncated 0 "/event-summary?x=1" "server error" "event-summary" 500
    (.ok .null) rfl (by decide)


/-- C6 (amended): on every path failing validation, no HTTP request is issued
(the result does not depend on the network at all) and the stats carry the raw
input path as `channel_id` with `pulled = 0, kept = 0`; however the `success`
and `error` fields are absent from those stats, not `success = false` with an
error describing the invalid endpoint as the claim states (that description is
only sent to the alert sink and the log). -/
theorem C6_invalid_endpoint (now : Int) (net : NetResult) (path e : String)
    (h : is_valid_endpoint_path path = .error e) :
    fetch_endpoint now net path = (emptyDf, ⟨path, "elfa", 0, 0, none, none⟩) := by
  unfold fetch_endpoint
  rw [h]

/-- Witness for C6: the scenario-3 path, with the network failing outright —
the result is the raw-path stats nonetheless. -/
theorem C6_invalid_endpoint_witness :
    fetch_endpoint 7 (.netError "down") "/unknown-endpoint"
      = (emptyDf, ⟨"/unknown-endpoint", "elfa", 0, 0, none, none⟩) :=
  C6_invalid_endpoint 7 (.netError "down") "/unknown-endpoint"
    "Unknown endpoint path: /unknown-endpoint" rfl

/-- C6 counterexample: on the invalid path of end-to-end scenario 3 the
returned stats have no `success = false` and no `error` field at all,
contradicting the claimed failure stats. -/
theorem C6_cex :
    (fetch_endpoint 0 (.response 200 "" (.ok .null)) "/unknown-endpoint").2.success ≠ some false
    ∧ (fetch_endpoint 0 (.response 200 "" (.ok .null)) "/unknown-endpoint").2.error = none :=
  ⟨fun h => Option.noConfusion h, rfl⟩

/-- The end-to-end scenario-1 payload:
`{"data": {"trending_narratives": [{"tweet_ids": [111], "narrative": "x",
"source_links": ["http://a"]}]}}`. -/
def scenarioOnePayload : JSON :=
  .obj [("data", .obj [("trending_narratives", .arr [.obj [
    ("tweet_ids", .arr [.num 111]), ("narrative", .str "x"),
    ("source_links", .arr [.str "http://a"])]])])]

/-- C7: end-to-end scenario 1 — the trending-narratives call produces exactly
one record with id 111, text "x", links ["http://a"], platform "elfa", and
stats with `pulled = 1, kept = 1` and `success` absent (whatever the current
time is). -/
theorem C7_scenario_one (now : Int) :
    fetch_endpoint now (.response 200 "" (.ok scenarioOnePayload))
      "/trending-narratives?timeFrame=day"
      = (⟨recordColumns, [⟨.num 111, "x", 1288834974657, "elfa_111", "elfa",
          "/trending-narratives?timeFrame=day", ["http://a"]⟩]⟩,
         ⟨"trending-narratives", "elfa", 1, 1, none, none⟩) := rfl

/-- A trending-narratives payload whose single item has a truthy non-list
identifier field — a per-item shape mismatch under a present top-level
container. -/
def mismatchPayload : JSON :=
  .obj [("data", .obj [("trending_narratives", .arr [.obj [("tweet_ids", .bool true)]])])]

/-- C8 counterexample: the structural guard accepts `mismatchPayload` (the
top-level container is present), yet the call fails — the parsing loop raises
on the item whose identifier field is truthy but not a list, and only the
outer catch-all recovers it — contradicting the claim that the parser never
throws on a per-item shape mismatch and fails only when the container is
absent. -/
theorem C8_cex :
    checkTrending mismatchPayload = .ok true
    ∧ (fetch_endpoint 0 (.response 200 "" (.ok mismatchPayload))
        "/trending-narratives").2.success = some false :=
  ⟨rfl, rfl⟩

/-- C8 (amended): for items that are objects, a missing text field defaults to
the empty string, a missing source-link field defaults to no links, and an
absent or empty identifier list merely skips the item — no exception and no
call-level failure; but an item whose identifier field holds a truthy
non-list, non-string value (or a non-object item) raises out of the parsing
loop and is recovered only by the outer unexpected-error boundary. -/
theorem C8_per_item_leniency (now : Int) (path : String) (ids : List JSON) :
    parseNarrativeItems now path [.obj [("tweet_ids", .arr ids)]]
      = (match ids with
         | [] => .ok []
         | h :: _ => .ok [⟨h, "", tweet_id_to_timestamp now h, "elfa_" ++ pyStr h,
             "elfa", path, []⟩])
    ∧ parseEventItems now path [.obj [("tweetIds", .arr ids)]]
      = (match ids with
         | [] => .ok []
         | h :: _ => .ok [⟨h, "", now, "elfa_" ++ pyStr h, "elfa", path, []⟩]) := by
  cases ids with
  | nil => exact ⟨rfl, rfl⟩
  | cons h t => exact ⟨rfl, rfl⟩

/-- C9 (amended): record ids within one fetch are pairwise distinct only when
the first identifiers of the kept items are pairwise distinct — the code
performs no deduplication, so duplicate first identifiers yield duplicate
record ids. -/
theorem C9_ids_nodup (now : Int) (path : String) (items : List JSON) :
    (∀ recs, parseNarrativeItems now path items = .ok recs →
      (items.filterMap (firstIdOf "tweet_ids")).Nodup →
      (recs.map NormalizedRecord.id).Nodup)
    ∧ (∀ recs, parseEventItems now path items = .ok recs →
      (items.filterMap (firstIdOf "tweetIds")).Nodup →
      (recs.map NormalizedRecord.id).Nodup) := by
  constructor
  · intro recs hp hnd
    rw [parseNarrativeItems_ids now path items recs hp]
    exact hnd
  · intro recs hp hnd
    rw [parseEventItems_ids now path items recs hp]
    exact hnd

/-- Witness for C9: two items with distinct first identifiers produce records
with distinct ids. -/
theorem C9_ids_nodup_witness :
    ((([⟨.num 1, "", 1288834974657, "elfa_1", "elfa", "/p", []⟩,
        ⟨.num 2, "", 1288834974657, "elfa_2", "elfa", "/p", []⟩] :
      List NormalizedRecord).map NormalizedRecord.id).Nodup) :=
  (C9_ids_nodup 0 "/p"
    [.obj [("tweet_ids", .arr [.num 1])], .obj [("tweet_ids", .arr [.num 2])]]).1
    [⟨.num 1, "", 1288834974657, "elfa_1", "elfa", "/p", []⟩,
     ⟨.num 2, "", 1288834974657, "elfa_2", "elfa", "/p", []⟩]
    rfl
    (by rw [show ([JSON.obj [("tweet_ids", .arr [.num 1])],
        JSON.obj [("tweet_ids", .arr [.num 2])]].filterMap (firstIdOf "tweet_ids"))
        = [JSON.num 1, JSON.num 2] from rfl]
        simp)

/-- C9 counterexample: two payload items sharing the first identifier 111
produce two records with equal ids in one fetch, so ids are not pairwise
distinct within a single fetch. -/
theorem C9_cex :
    ¬ ((fetch_endpoint 0 (.response 200 "" (.ok (.obj [("data", .obj [("trending_narratives",
        .arr [.obj [("tweet_ids", .arr [.num 111])],
              .obj [("tweet_ids", .arr [.num 111])]])])])))
        "/trending-narratives").1.rows.map NormalizedRecord.id).Nodup := by
  intro h
  have h2 : ([JSON.num 111, JSON.num 111] : List JSON).Nodup := h
  simp at h2

/-- C10: whenever the returned frame has no rows it carries exactly the
columns id, text, timestamp, author, platform, links — without `channel_id` —
while a frame with rows carries the seven record columns including
`channel_id`: the schema differs between empty and non-empty results. -/
theorem C10_schema_mismatch (now : Int) (net : NetResult) (path : String) :
    ((fetch_endpoint now net path).1.rows = [] →
      (fetch_endpoint now net path).1.columns
        = ["id", "text", "timestamp", "author", "platform", "links"])
    ∧ ((fetch_endpoint now net path).1.rows ≠ [] →
      (fetch_endpoint now net path).1.columns
        = ["id", "text", "timestamp", "author", "platform", "channel_id", "links"]) := by
  rcases fetch_shape now net path with ⟨e, hv, hr⟩ | ⟨e, hr⟩ | ⟨recs, n, hr, hle⟩ <;> rw [hr]
  · exact ⟨fun _ => rfl, fun hne => absurd rfl hne⟩
  · exact ⟨fun _ => rfl, fun hne => absurd rfl hne⟩
  · dsimp only
    unfold dfOfRecords
    by_cases hrecs : recs.isEmpty = true
    · rw [if_pos hrecs]
      exact ⟨fun _ => rfl, fun hne => absurd rfl hne⟩
    · rw [if_neg hrecs]
      refine ⟨fun hrows => ?_, fun _ => rfl⟩
      exact absurd (List.isEmpty_iff.mpr hrows) hrecs

/-- Witness for C10: a failed fetch returns the six-column empty frame; the
scenario-1 fetch returns a one-row frame with the seven record columns. -/
theorem C10_schema_mismatch_witness :
    (fetch_endpoint 0 (.netError "down") "/zzz").1.columns
      = ["id", "text", "timestamp", "author", "platform", "links"]
    ∧ (fetch_endpoint 0 (.response 200 "" (.ok (.obj [("data", .obj [("trending_narratives",
        .arr [.obj [("tweet_ids", .arr [.num 3])]])])])))
        "/trending-narratives").1.columns
      = ["id", "text", "timestamp", "author", "platform", "channel_id", "links"] :=
  ⟨(C10_schema_mismatch 0 (.netError "down") "/zzz").1 rfl,
   (C10_schema_mismatch 0 (.response 200 "" (.ok (.obj [("data", .obj [("trending_narratives",
      .arr [.obj [("tweet_ids", .arr [.num 3])]])])])))
      "/trending-narratives").2 (List.cons_ne_nil _ _)⟩

end DailyScraper
